import Mathlib

/-!
Shallow embedding of the CoherentPEM Tango device driver
(src/CoherentPEM.py) for checking the specification's claims about the
measurement decoder, the cached last-reading statistics fields, the
rolling statistics over the polled Value history, unit scaling and the
two pass-through commands.

Modelling conventions:
* Python floats are modelled as rationals (ℚ); the instrument emits
  plain decimal / scientific literals, which are exact decimals.
* A Python attribute holding either a float, an int or a string
  (`self.min` et al., which `read_Value` sets to `''` in the
  non-statistics branch) is modelled by the sum type `PyVal`.
* Fallible operations (`float(...)`, `int(...)` casts and list
  indexing) return `Except PyErr`; an uncaught exception in the Python
  getter is an `Except.error` result, which Tango surfaces as a failed
  attribute read.  Because assignments to `self.*` happen one by one,
  an error outcome carries the partially mutated state, exactly as the
  Python object is left when the exception propagates.
* `numpy` NaN is modelled by `Option`: `none` is NaN.  `np.nanmean`
  and `np.nanstd` return NaN (with a warning, not an exception) on
  empty and all-NaN input, so those model functions are total and
  return `none` there.  `np.nanmin`/`np.nanmax`, however, raise
  `ValueError` on a zero-size array (the `fmin`/`fmax` reduction has
  no identity) and return NaN only on a non-empty all-NaN array, so
  their models return `Except` with the error on the empty buffer.
-/

namespace CoherentPEM

/-- The two instrument families distinguished by the `*IDN?` reply
(`'EnergyMax' in self.ID` / `'PowerMax' in self.ID`). -/
inductive Variant where
  | energyMax
  | powerMax
deriving DecidableEq

/-- A dynamically typed Python value as stored in the cached
last-reading attributes (`self.min`, `self.max`, `self.std`,
`self.dose`, `self.missed`): a float, an int, or a string (the
non-statistics branch stores the empty string). -/
inductive PyVal where
  | pfloat (q : ℚ)
  | pint (n : ℤ)
  | pstr (s : String)
deriving DecidableEq

/-- The Python exceptions that can escape the attribute getters: a
failed `float(...)`/`int(...)` cast or a numpy zero-size reduction
(ValueError), or an out-of-range `data[i]` (IndexError). -/
inductive PyErr where
  | valueError
  | indexError
deriving DecidableEq

/-- The mutable driver state relevant to the decoder: the variant and
statistics-mode flag fixed at connection/mode-write time, the current
unit scale set by `write_Mode`, and the cached last-reading fields
written by `read_Value` and consumed by the sibling attribute
getters. -/
structure PEMState where
  variant : Variant
  statmode : Bool
  unitscale : ℕ
  min : PyVal
  max : PyVal
  std : PyVal
  dose : PyVal
  missed : PyVal
  flags : String
  seqid : ℤ
  period : ℤ
deriving DecidableEq

/-! ### Numeric field parsing

`parseFloat?` and `parseInt?` model Python's `float(s)` and `int(s)`
casts on the literals the instrument produces: an optional sign,
digits with an optional fraction for floats, and an optional decimal
exponent.  (Surrounding whitespace, `inf`/`nan` and underscore digit
separators, which Python would also accept, are not modelled; `int`
accepts digits only, so `int("2.0")` fails, as in Python.) -/

/-- Numeric value of a digit string (most significant first). -/
def digitsToNat (cs : List Char) : ℕ :=
  cs.foldl (fun a c => 10 * a + (c.toNat - 48)) 0

/-- All characters are decimal digits. -/
def allDigits (cs : List Char) : Bool :=
  cs.all Char.isDigit

/-- Strip an optional leading sign; returns (isNegative, rest). -/
def parseSign : List Char → Bool × List Char
  | '-' :: rest => (true, rest)
  | '+' :: rest => (false, rest)
  | cs => (false, cs)

/-- Split a character list at every occurrence of `sep`, keeping empty
chunks (the behaviour of Python's `str.split(sep)`). -/
def splitCharOn (sep : Char) : List Char → List (List Char)
  | [] => [[]]
  | c :: rest =>
    let r := splitCharOn sep rest
    if c = sep then [] :: r
    else
      match r with
      | [] => [[c]]
      | h :: t => (c :: h) :: t

/-- `10 ^ e` as a rational, for a possibly negative exponent. -/
def pow10 (e : ℤ) : ℚ :=
  if 0 ≤ e then (10 : ℚ) ^ e.toNat else 1 / (10 : ℚ) ^ (-e).toNat

/-- Parse the exponent part of a float literal (after `e`/`E`). -/
def parseExpPart (cs : List Char) : Option ℤ :=
  let p := parseSign cs
  if !p.2.isEmpty && allDigits p.2 then
    some (if p.1 then -(digitsToNat p.2 : ℤ) else (digitsToNat p.2 : ℤ))
  else none

/-- Parse an unsigned mantissa `digits[.digits]`; returns the digit
string's value together with the number of fractional digits.  At
least one digit must be present (`float(".")` fails in Python, while
`float("1.")` and `float(".5")` succeed). -/
def parseMantissa (cs : List Char) : Option (ℕ × ℕ) :=
  match splitCharOn '.' cs with
  | [i] => if !i.isEmpty && allDigits i then some (digitsToNat i, 0) else none
  | [i, f] =>
    if !(i ++ f).isEmpty && allDigits (i ++ f) then
      some (digitsToNat (i ++ f), f.length)
    else none
  | _ => none

/-- Assemble a rational from sign, mantissa digits, fractional digit
count and decimal exponent. -/
def mkRat10 (neg : Bool) (m : ℕ) (k : ℕ) (e : ℤ) : ℚ :=
  (if neg then -(m : ℚ) else (m : ℚ)) * pow10 (e - (k : ℤ))

/-- Model of Python's `float(s)` cast on instrument literals. -/
def parseFloat? (s : String) : Option ℚ :=
  let p := parseSign s.data
  let cs := p.2.map Char.toLower
  match splitCharOn 'e' cs with
  | [m] => (parseMantissa m).map (fun mk => mkRat10 p.1 mk.1 mk.2 0)
  | [m, ex] =>
    match parseMantissa m, parseExpPart ex with
    | some mk, some e => some (mkRat10 p.1 mk.1 mk.2 e)
    | _, _ => none
  | _ => none

/-- Model of Python's `int(s)` cast: optional sign and digits only. -/
def parseInt? (s : String) : Option ℤ :=
  let p := parseSign s.data
  if !p.2.isEmpty && allDigits p.2 then
    some (if p.1 then -(digitsToNat p.2 : ℤ) else (digitsToNat p.2 : ℤ))
  else none

/-! ### Fallible primitives used by `read_Value` -/

/-- Python `data[i]` on the split response (only non-negative indices
occur): the i-th element, or IndexError when out of range. -/
def pyIndex (data : List String) (i : ℕ) : Except PyErr String :=
  match data, i with
  | [], _ => Except.error PyErr.indexError
  | s :: _, 0 => Except.ok s
  | _ :: rest, i + 1 => pyIndex rest i

/-- Python `float(s)`: ValueError when the literal does not parse. -/
def pyFloat (s : String) : Except PyErr ℚ :=
  match parseFloat? s with
  | some q => Except.ok q
  | none => Except.error PyErr.valueError

/-- Python `int(s)`: ValueError when the literal does not parse. -/
def pyInt (s : String) : Except PyErr ℤ :=
  match parseInt? s with
  | some n => Except.ok n
  | none => Except.error PyErr.valueError

/-- Python `float(data[i])`. -/
def getFloat (data : List String) (i : ℕ) : Except PyErr ℚ :=
  match pyIndex data i with
  | Except.ok s => pyFloat s
  | Except.error e => Except.error e

/-- Python `int(data[i])`. -/
def getInt (data : List String) (i : ℕ) : Except PyErr ℤ :=
  match pyIndex data i with
  | Except.ok s => pyInt s
  | Except.error e => Except.error e

/-! ### The measurement decoder: `read_Value` -/

/-- Embedding of `CoherentPEM.read_Value` (src/CoherentPEM.py lines
345-376).  `data` is the `READ?` reply line already split on commas
(`response.split(',')`).  Success returns the mutated driver state
and the value `value * (1000 ** self.unitscale)` that the getter
returns; an uncaught exception returns `Except.error` carrying the
exception kind and the state as mutated so far, since the Python
assignments `self.period = ...`, `self.min = ...`, ... happen
sequentially before the raising expression. -/
def read_Value (st : PEMState) (data : List String) :
    Except (PyErr × PEMState) (PEMState × ℚ) :=
  match st.variant with
  | Variant.energyMax =>
    match st.statmode with
    | false =>
      match getFloat data 0 with
      | Except.error e => Except.error (e, st)
      | Except.ok value =>
      match getInt data 1 with
      | Except.error e => Except.error (e, st)
      | Except.ok p =>
      let st1 := { st with period := p }
      match pyIndex data 2 with
      | Except.error e => Except.error (e, st1)
      | Except.ok f =>
      let st2 := { st1 with flags := f }
      match getInt data 3 with
      | Except.error e => Except.error (e, st2)
      | Except.ok sq =>
      let st3 := { st2 with seqid := sq, min := PyVal.pstr "", max := PyVal.pstr "",
                            std := PyVal.pstr "", dose := PyVal.pstr "",
                            missed := PyVal.pstr "" }
      Except.ok (st3, value * (1000 : ℚ) ^ st.unitscale)
    | true =>
      match getFloat data 0 with
      | Except.error e => Except.error (e, st)
      | Except.ok value =>
      match getFloat data 1 with
      | Except.error e => Except.error (e, st)
      | Except.ok mn =>
      let st1 := { st with min := PyVal.pfloat mn }
      match getFloat data 2 with
      | Except.error e => Except.error (e, st1)
      | Except.ok mx =>
      let st2 := { st1 with max := PyVal.pfloat mx }
      match getFloat data 3 with
      | Except.error e => Except.error (e, st2)
      | Except.ok sd =>
      let st3 := { st2 with std := PyVal.pfloat sd }
      match getFloat data 4 with
      | Except.error e => Except.error (e, st3)
      | Except.ok ds =>
      let st4 := { st3 with dose := PyVal.pfloat ds }
      match getInt data 5 with
      | Except.error e => Except.error (e, st4)
      | Except.ok ms =>
      let st5 := { st4 with missed := PyVal.pint ms }
      match pyIndex data 6 with
      | Except.error e => Except.error (e, st5)
      | Except.ok f =>
      let st6 := { st5 with flags := f }
      match getInt data 7 with
      | Except.error e => Except.error (e, st6)
      | Except.ok sq =>
      let st7 := { st6 with seqid := sq }
      Except.ok (st7, value * (1000 : ℚ) ^ st.unitscale)
  | Variant.powerMax =>
    match getFloat data 0 with
    | Except.error e => Except.error (e, st)
    | Except.ok value =>
    match pyIndex data 1 with
    | Except.error e => Except.error (e, st)
    | Except.ok f =>
    let st1 := { st with flags := f }
    match getInt data 2 with
    | Except.error e => Except.error (e, st1)
    | Except.ok sq =>
    let st2 := { st1 with seqid := sq }
    Except.ok (st2, value * (1000 : ℚ) ^ st.unitscale)

/-- Python `.lstrip().rstrip()` with no arguments: strip surrounding
whitespace. -/
def pyStrip (s : String) : String := s.trim

/-- The full getter on a raw reply line: the Python code strips the
line and splits it on commas before indexing
(`response = self.ser.readline()...lstrip().rstrip();
data = response.split(',')`). -/
def decodeResponse (st : PEMState) (line : String) :
    Except (PyErr × PEMState) (PEMState × ℚ) :=
  read_Value st ((pyStrip line).split (fun c => c = ','))

/-- The serial lines `read_Value` writes before reading its single
reply line: exactly one `READ?` command (line 346); in particular the
statistics mode is never re-queried during a Value read. -/
def read_Value_writes (_st : PEMState) : List String := ["READ?\r"]

/-- The query `read_Statistics_mode` sends when the statistics-mode
attribute itself is read (line 461). -/
def Statistics_mode_query : String := "CONFigure:MEASure:STATistics?\r"

/-! ### Sibling attribute getters over the cached fields -/

/-- Python string repetition `s * n`. -/
def strRepeat (s : String) : ℕ → String
  | 0 => ""
  | n + 1 => s ++ strRepeat s n

/-- Python `v * n` for a dynamically typed `v` and a non-negative int
`n`: float and int multiply, a string is repeated. -/
def pyMulNat (v : PyVal) (n : ℕ) : PyVal :=
  match v with
  | PyVal.pfloat q => PyVal.pfloat (q * (n : ℚ))
  | PyVal.pint k => PyVal.pint (k * (n : ℤ))
  | PyVal.pstr s => PyVal.pstr (strRepeat s n)

/-- `read_Statistics_min` (line 477-478): `self.min * (1000 ** self.unitscale)`. -/
def read_Statistics_min (st : PEMState) : PyVal :=
  pyMulNat st.min (1000 ^ st.unitscale)

/-- `read_Statistics_max` (line 480-481). -/
def read_Statistics_max (st : PEMState) : PyVal :=
  pyMulNat st.max (1000 ^ st.unitscale)

/-- `read_Statistics_std` (line 483-484). -/
def read_Statistics_std (st : PEMState) : PyVal :=
  pyMulNat st.std (1000 ^ st.unitscale)

/-- `read_Statistics_dose` (line 486-487). -/
def read_Statistics_dose (st : PEMState) : PyVal :=
  pyMulNat st.dose (1000 ^ st.unitscale)

/-- `read_Statistics_missed` (line 489-490): returned unscaled. -/
def read_Statistics_missed (st : PEMState) : PyVal :=
  st.missed

/-- `read_SeqID` (line 424-425): returned unscaled. -/
def read_SeqID (st : PEMState) : ℤ :=
  st.seqid

/-! ### Mode and statistics-mode writes -/

/-- `write_Mode` (lines 389-402), restricted to the state it mutates:
`self.unitscale = value % 3` (the serial mode command and the Tango
unit-property updates carry no decoder state). -/
def write_Mode (st : PEMState) (value : ℕ) : PEMState :=
  { st with unitscale := value % 3 }

/-- `write_Statistics_mode` (lines 467-475): sets `self.statmode` and
issues the corresponding serial commands. -/
def write_Statistics_mode (st : PEMState) (b : Bool) : PEMState × List String :=
  if b then
    ({ st with statmode := true },
      ["CONFigure:MEASure:STATistics ON\r", "CONFigure:STATistics:STARt\r"])
  else
    ({ st with statmode := false },
      ["CONFigure:STATistics:STOP\r", "CONFigure:MEASure:STATistics OFF\r"])

/-! ### Which optional part a decode populates

Read off the branch structure of `read_Value`: the EnergyMax
statistics branch assigns `self.min ... self.missed` and not
`self.period`; the EnergyMax non-statistics branch assigns
`self.period` and blanks the statistics fields; the PowerMax branch
assigns neither. -/

/-- The decode assigns the statistics fields. -/
def statsPopulated (v : Variant) (m : Bool) : Bool :=
  match v with
  | Variant.energyMax => m
  | Variant.powerMax => false

/-- The decode assigns the period field. -/
def periodPopulated (v : Variant) (m : Bool) : Bool :=
  match v with
  | Variant.energyMax => !m
  | Variant.powerMax => false

/-! ### Rolling statistics over the polled Value history
(`read_Statistics_calc_*`, lines 587-603)

The history buffer handed over by the polling framework is a list of
float readings; `none` models a NaN entry.  All four aggregations
ignore NaN entries.  `np.nanmean` and `np.nanstd` (population
convention, `ddof=0`) return NaN — they only warn — when no numeric
entry remains, even on a zero-size array.  `np.nanmin`/`np.nanmax`
raise `ValueError` on a zero-size array (`fmin.reduce`/`fmax.reduce`
have no identity), which escapes the getter and fails the read, and
return NaN only on a non-empty all-NaN array. -/

/-- The non-NaN entries of the buffer. -/
def nanValid (xs : List (Option ℚ)) : List ℚ :=
  xs.filterMap id

/-- `np.nanmean`. -/
def nanmean (xs : List (Option ℚ)) : Option ℚ :=
  let v := nanValid xs
  if v.length = 0 then none else some (v.sum / (v.length : ℚ))

/-- The squared `np.nanstd` (population variance of the non-NaN
entries, divisor `n`, numpy's default `ddof=0`). -/
def nanvariance (xs : List (Option ℚ)) : Option ℚ :=
  let v := nanValid xs
  if v.length = 0 then none
  else
    let mu := v.sum / (v.length : ℚ)
    some ((v.map (fun x => (x - mu) ^ 2)).sum / (v.length : ℚ))

/-- `np.nanstd`: square root of the population variance. -/
noncomputable def nanstd (xs : List (Option ℚ)) : Option ℝ :=
  (nanvariance xs).map (fun q => Real.sqrt (q : ℝ))

/-- `np.nanmin`: raises `ValueError` on a zero-size array ("zero-size
array to reduction operation fmin which has no identity"); otherwise
the minimum of the non-NaN entries, or NaN when all entries are
NaN. -/
def nanmin (xs : List (Option ℚ)) : Except PyErr (Option ℚ) :=
  match xs with
  | [] => Except.error PyErr.valueError
  | _ :: _ =>
    match nanValid xs with
    | [] => Except.ok none
    | h :: t => Except.ok (some (t.foldl min h))

/-- `np.nanmax`: raises `ValueError` on a zero-size array; otherwise
the maximum of the non-NaN entries, or NaN when all entries are
NaN. -/
def nanmax (xs : List (Option ℚ)) : Except PyErr (Option ℚ) :=
  match xs with
  | [] => Except.error PyErr.valueError
  | _ :: _ =>
    match nanValid xs with
    | [] => Except.ok none
    | h :: t => Except.ok (some (t.foldl max h))

/-- `read_Statistics_calc_mean` (lines 587-594): `np.nanmean` over the
polled Value history. -/
def read_Statistics_calc_mean (hist : List (Option ℚ)) : Option ℚ :=
  nanmean hist

/-- `read_Statistics_calc_std` (lines 596-597):
`100 * (np.nanstd(hist) / np.nanmean(hist))` over the buffer cached by
the mean read; NaN propagates through the division and the product. -/
noncomputable def read_Statistics_calc_std (hist : List (Option ℚ)) : Option ℝ :=
  match nanstd hist, nanmean hist with
  | some s, some m => some (100 * (s / (m : ℝ)))
  | _, _ => none

/-- `read_Statistics_calc_min` (lines 599-600): an `Except.error`
result is the uncaught numpy `ValueError` on an empty buffer, which
Tango surfaces as a failed attribute read. -/
def read_Statistics_calc_min (hist : List (Option ℚ)) : Except PyErr (Option ℚ) :=
  nanmin hist

/-- `read_Statistics_calc_max` (lines 602-603): error as for the min
read. -/
def read_Statistics_calc_max (hist : List (Option ℚ)) : Except PyErr (Option ℚ) :=
  nanmax hist

/-! ### Pass-through commands (lines 636-644) -/

/-- `send_query`: writes `query + "\r"`, reads one reply line and
returns it stripped of surrounding whitespace
(`readline().decode("utf-8").lstrip().rstrip()`).  Result: the list
of written lines and the returned string. -/
def send_query (query : String) (reply : String) : List String × String :=
  ([query ++ "\r"], pyStrip reply)

/-- `send_cmd`: writes `cmd + "\r"` and returns the empty string
without reading a reply. -/
def send_cmd (cmd : String) : List String × String :=
  ([cmd ++ "\r"], "")

/-- A statistics-mode `READ?` reply line is well formed for the
8-field layout: at least the eight indexed fields exist, fields
0-4 parse as floats, fields 5 and 7 parse as ints (field 6 is the
flags string and may be anything). -/
def statLineOk (data : List String) : Bool :=
  decide (8 ≤ data.length) &&
  (parseFloat? (data.getD 0 "")).isSome && (parseFloat? (data.getD 1 "")).isSome &&
  (parseFloat? (data.getD 2 "")).isSome && (parseFloat? (data.getD 3 "")).isSome &&
  (parseFloat? (data.getD 4 "")).isSome && (parseInt? (data.getD 5 "")).isSome &&
  (parseInt? (data.getD 7 "")).isSome

/-! ### Shared concrete states used by witnesses and counterexamples -/

/-- An EnergyMax driver state with statistics mode on, base units, and
previously cached statistics values from an earlier read. -/
def emStatState : PEMState :=
  { variant := Variant.energyMax,
    statmode := true,
    unitscale := 0,
    min := PyVal.pfloat 10,
    max := PyVal.pfloat 11,
    std := PyVal.pfloat 12,
    dose := PyVal.pfloat 13,
    missed := PyVal.pint 14,
    flags := "OLD",
    seqid := 5,
    period := 3 }

/-- An EnergyMax driver state with statistics mode off. -/
def emOffState : PEMState :=
  { variant := Variant.energyMax,
    statmode := false,
    unitscale := 0,
    min := PyVal.pfloat 10,
    max := PyVal.pfloat 11,
    std := PyVal.pfloat 12,
    dose := PyVal.pfloat 13,
    missed := PyVal.pint 14,
    flags := "OLD",
    seqid := 5,
    period := 3 }

/-- A PowerMax driver state with marker values in the cached fields. -/
def pmState : PEMState :=
  { variant := Variant.powerMax,
    statmode := false,
    unitscale := 0,
    min := PyVal.pstr "",
    max := PyVal.pstr "",
    std := PyVal.pstr "",
    dose := PyVal.pstr "",
    missed := PyVal.pstr "",
    flags := "OLD",
    seqid := 5,
    period := 77 }

deriving instance DecidableEq for Except

/-! ### Characterisation lemmas for the three decode branches -/

theorem getFloat_ok_elim (data : List String) (i : ℕ) (q : ℚ)
    (h : getFloat data i = Except.ok q) :
    ∃ s, pyIndex data i = Except.ok s ∧ parseFloat? s = some q := by
  unfold getFloat at h
  cases hp : pyIndex data i with
  | error e => rw [hp] at h; simp at h
  | ok s =>
    rw [hp] at h
    dsimp only at h
    refine ⟨s, rfl, ?_⟩
    unfold pyFloat at h
    cases hf : parseFloat? s with
    | none => rw [hf] at h; simp at h
    | some r =>
      rw [hf] at h
      simp only [Except.ok.injEq] at h
      rw [h]

theorem getInt_ok_elim (data : List String) (i : ℕ) (n : ℤ)
    (h : getInt data i = Except.ok n) :
    ∃ s, pyIndex data i = Except.ok s ∧ parseInt? s = some n := by
  unfold getInt at h
  cases hp : pyIndex data i with
  | error e => rw [hp] at h; simp at h
  | ok s =>
    rw [hp] at h
    dsimp only at h
    refine ⟨s, rfl, ?_⟩
    unfold pyInt at h
    cases hf : parseInt? s with
    | none => rw [hf] at h; simp at h
    | some r =>
      rw [hf] at h
      simp only [Except.ok.injEq] at h
      rw [h]

theorem pyIndex_ok_getD (data : List String) (i : ℕ) (s : String)
    (h : pyIndex data i = Except.ok s) :
    i < data.length ∧ data.getD i "" = s := by
  induction data generalizing i with
  | nil => simp [pyIndex] at h
  | cons a l ih =>
    cases i with
    | zero =>
      simp only [pyIndex, Except.ok.injEq] at h
      simp [h]
    | succ n =>
      have hh : pyIndex l n = Except.ok s := h
      obtain ⟨h1, h2⟩ := ih n hh
      constructor
      · simpa using Nat.succ_lt_succ h1
      · simpa using h2

/-- Successful stat-off EnergyMax decode: what must have parsed and
how the state is left. -/
theorem off_char (st : PEMState) (data : List String) (st' : PEMState) (v : ℚ)
    (hvar : st.variant = Variant.energyMax) (hsm : st.statmode = false)
    (hok : read_Value st data = Except.ok (st', v)) :
    ∃ q p f sq, getFloat data 0 = Except.ok q ∧ getInt data 1 = Except.ok p ∧
      pyIndex data 2 = Except.ok f ∧ getInt data 3 = Except.ok sq ∧
      st' = { st with
              period := p,
              flags := f,
              seqid := sq,
              min := PyVal.pstr "",
              max := PyVal.pstr "",
              std := PyVal.pstr "",
              dose := PyVal.pstr "",
              missed := PyVal.pstr "" } ∧
      v = q * (1000 : ℚ) ^ st.unitscale := by
  simp only [read_Value, hvar, hsm] at hok
  rcases h0 : getFloat data 0 with e | q <;> rw [h0] at hok
  · simp at hok
  rcases h1 : getInt data 1 with e | p <;> rw [h1] at hok
  · simp at hok
  rcases h2 : pyIndex data 2 with e | f <;> rw [h2] at hok
  · simp at hok
  rcases h3 : getInt data 3 with e | sq <;> rw [h3] at hok
  · simp at hok
  simp only [Except.ok.injEq, Prod.mk.injEq] at hok
  refine ⟨q, p, f, sq, rfl, rfl, rfl, rfl, ?_, hok.2.symm⟩
  rw [hvar, hsm, ← hok.1]

/-- Successful stat-on EnergyMax decode: what must have parsed and how
the state is left. -/
theorem on_char (st : PEMState) (data : List String) (st' : PEMState) (v : ℚ)
    (hvar : st.variant = Variant.energyMax) (hsm : st.statmode = true)
    (hok : read_Value st data = Except.ok (st', v)) :
    ∃ q mn mx sd ds ms f sq,
      getFloat data 0 = Except.ok q ∧ getFloat data 1 = Except.ok mn ∧
      getFloat data 2 = Except.ok mx ∧ getFloat data 3 = Except.ok sd ∧
      getFloat data 4 = Except.ok ds ∧ getInt data 5 = Except.ok ms ∧
      pyIndex data 6 = Except.ok f ∧ getInt data 7 = Except.ok sq ∧
      st' = { st with
              min := PyVal.pfloat mn,
              max := PyVal.pfloat mx,
              std := PyVal.pfloat sd,
              dose := PyVal.pfloat ds,
              missed := PyVal.pint ms,
              flags := f,
              seqid := sq } ∧
      v = q * (1000 : ℚ) ^ st.unitscale := by
  simp only [read_Value, hvar, hsm] at hok
  rcases h0 : getFloat data 0 with e | q <;> rw [h0] at hok
  · simp at hok
  rcases h1 : getFloat data 1 with e | mn <;> rw [h1] at hok
  · simp at hok
  rcases h2 : getFloat data 2 with e | mx <;> rw [h2] at hok
  · simp at hok
  rcases h3 : getFloat data 3 with e | sd <;> rw [h3] at hok
  · simp at hok
  rcases h4 : getFloat data 4 with e | ds <;> rw [h4] at hok
  · simp at hok
  rcases h5 : getInt data 5 with e | ms <;> rw [h5] at hok
  · simp at hok
  rcases h6 : pyIndex data 6 with e | f <;> rw [h6] at hok
  · simp at hok
  rcases h7 : getInt data 7 with e | sq <;> rw [h7] at hok
  · simp at hok
  simp only [Except.ok.injEq, Prod.mk.injEq] at hok
  refine ⟨q, mn, mx, sd, ds, ms, f, sq, rfl, rfl, rfl, rfl, rfl, rfl, rfl, rfl, ?_,
    hok.2.symm⟩
  rw [hvar, hsm, ← hok.1]

/-- Successful PowerMax decode: what must have parsed and how the
state is left. -/
theorem pm_char (st : PEMState) (data : List String) (st' : PEMState) (v : ℚ)
    (hvar : st.variant = Variant.powerMax)
    (hok : read_Value st data = Except.ok (st', v)) :
    ∃ q f sq,
      getFloat data 0 = Except.ok q ∧ pyIndex data 1 = Except.ok f ∧
      getInt data 2 = Except.ok sq ∧
      st' = { st with flags := f, seqid := sq } ∧
      v = q * (1000 : ℚ) ^ st.unitscale := by
  simp only [read_Value, hvar] at hok
  rcases h0 : getFloat data 0 with e | q <;> rw [h0] at hok
  · simp at hok
  rcases h1 : pyIndex data 1 with e | f <;> rw [h1] at hok
  · simp at hok
  rcases h2 : getInt data 2 with e | sq <;> rw [h2] at hok
  · simp at hok
  simp only [Except.ok.injEq, Prod.mk.injEq] at hok
  refine ⟨q, f, sq, rfl, rfl, rfl, ?_, hok.2.symm⟩
  rw [hvar, ← hok.1]

/-- Evaluation of the stat-off EnergyMax branch when every cast
succeeds. -/
theorem off_eval (st : PEMState) (data : List String)
    (hvar : st.variant = Variant.energyMax) (hsm : st.statmode = false)
    (q : ℚ) (p sq : ℤ) (f : String)
    (g0 : getFloat data 0 = Except.ok q) (g1 : getInt data 1 = Except.ok p)
    (g2 : pyIndex data 2 = Except.ok f) (g3 : getInt data 3 = Except.ok sq) :
    read_Value st data =
      Except.ok
        ({ st with
           period := p,
           flags := f,
           seqid := sq,
           min := PyVal.pstr "",
           max := PyVal.pstr "",
           std := PyVal.pstr "",
           dose := PyVal.pstr "",
           missed := PyVal.pstr "" }, q * (1000 : ℚ) ^ st.unitscale) := by
  simp [read_Value, hvar, hsm, g0, g1, g2, g3]

/-- Evaluation of the stat-on EnergyMax branch when every cast
succeeds. -/
theorem on_eval (st : PEMState) (data : List String)
    (hvar : st.variant = Variant.energyMax) (hsm : st.statmode = true)
    (q mn mx sd ds : ℚ) (ms sq : ℤ) (f : String)
    (g0 : getFloat data 0 = Except.ok q) (g1 : getFloat data 1 = Except.ok mn)
    (g2 : getFloat data 2 = Except.ok mx) (g3 : getFloat data 3 = Except.ok sd)
    (g4 : getFloat data 4 = Except.ok ds) (g5 : getInt data 5 = Except.ok ms)
    (g6 : pyIndex data 6 = Except.ok f) (g7 : getInt data 7 = Except.ok sq) :
    read_Value st data =
      Except.ok
        ({ st with
           min := PyVal.pfloat mn,
           max := PyVal.pfloat mx,
           std := PyVal.pfloat sd,
           dose := PyVal.pfloat ds,
           missed := PyVal.pint ms,
           flags := f,
           seqid := sq }, q * (1000 : ℚ) ^ st.unitscale) := by
  simp [read_Value, hvar, hsm, g0, g1, g2, g3, g4, g5, g6, g7]

/-- Evaluation of the PowerMax branch when every cast succeeds. -/
theorem pm_eval (st : PEMState) (data : List String)
    (hvar : st.variant = Variant.powerMax)
    (q : ℚ) (sq : ℤ) (f : String)
    (g0 : getFloat data 0 = Except.ok q) (g1 : pyIndex data 1 = Except.ok f)
    (g2 : getInt data 2 = Except.ok sq) :
    read_Value st data =
      Except.ok ({ st with flags := f, seqid := sq }, q * (1000 : ℚ) ^ st.unitscale) := by
  simp [read_Value, hvar, g0, g1, g2]

/-- Repeating the empty string gives the empty string. -/
theorem strRepeat_empty (n : ℕ) : strRepeat "" n = "" := by
  induction n with
  | zero => rfl
  | succ k ih =>
    show "" ++ strRepeat "" k = ""
    rw [ih]
    decide

/-! ## The claims -/


/-- Claim C1, counterexample: a statistics-mode reply line with nine
fields has the wrong field count for the 8-field layout, yet the
decoder accepts it (decoding the first eight fields and ignoring the
rest) instead of failing, so the claim as stated is false. -/
theorem C1_counterexample :
    (["1", "2", "3", "4", "5", "6", "F", "7", "X"] : List String).length ≠ 8 ∧
    read_Value emStatState ["1", "2", "3", "4", "5", "6", "F", "7", "X"] =
      Except.ok
        ({ emStatState with
           min := PyVal.pfloat 2,
           max := PyVal.pfloat 3,
           std := PyVal.pfloat 4,
           dose := PyVal.pfloat 5,
           missed := PyVal.pint 6,
           flags := "F",
           seqid := 7 }, 1) :=
  ⟨by decide, by with_unfolding_all decide⟩

/-- Claim C1 (amended): under EnergyMax with statistics mode on, a
reply line with fewer than eight fields, or with a field among the
first eight that does not parse as its required numeric type, makes
`read_Value` raise (IndexError or ValueError), surfacing as a failed
attribute read; no measurement sample — in particular none with
seqId = 0 — is returned.  (Lines with more than eight well-formed
leading fields are accepted, which is the one correction.) -/
theorem C1_amended (st : PEMState) (data : List String)
    (hvar : st.variant = Variant.energyMax) (hsm : st.statmode = true)
    (hbad : statLineOk data = false) :
    ∃ e st1, read_Value st data = Except.error (e, st1) := by
  cases hres : read_Value st data with
  | error pr => exact ⟨pr.1, pr.2, by simp [hres]⟩
  | ok pr =>
    exfalso
    obtain ⟨st', v⟩ := pr
    obtain ⟨q, mn, mx, sd, ds, ms, f, sq, g0, g1, g2, g3, g4, g5, g6, g7, _, _⟩ :=
      on_char st data st' v hvar hsm hres
    obtain ⟨s0, i0, p0⟩ := getFloat_ok_elim data 0 q g0
    obtain ⟨s1, i1, p1⟩ := getFloat_ok_elim data 1 mn g1
    obtain ⟨s2, i2, p2⟩ := getFloat_ok_elim data 2 mx g2
    obtain ⟨s3, i3, p3⟩ := getFloat_ok_elim data 3 sd g3
    obtain ⟨s4, i4, p4⟩ := getFloat_ok_elim data 4 ds g4
    obtain ⟨s5, i5, p5⟩ := getInt_ok_elim data 5 ms g5
    obtain ⟨s7, i7, p7⟩ := getInt_ok_elim data 7 sq g7
    obtain ⟨l0, d0⟩ := pyIndex_ok_getD data 0 s0 i0
    obtain ⟨l1, d1⟩ := pyIndex_ok_getD data 1 s1 i1
    obtain ⟨l2, d2⟩ := pyIndex_ok_getD data 2 s2 i2
    obtain ⟨l3, d3⟩ := pyIndex_ok_getD data 3 s3 i3
    obtain ⟨l4, d4⟩ := pyIndex_ok_getD data 4 s4 i4
    obtain ⟨l5, d5⟩ := pyIndex_ok_getD data 5 s5 i5
    obtain ⟨l7, d7⟩ := pyIndex_ok_getD data 7 s7 i7
    have hlen : 8 ≤ data.length := l7
    have : statLineOk data = true := by
      unfold statLineOk
      rw [d0, d1, d2, d3, d4, d5, d7, p0, p1, p2, p3, p4, p5, p7]
      simp [hlen]
    rw [this] at hbad
    simp at hbad

/-- Witness for C1: the example line "1.5,2,FLAG" is malformed for
the 8-field layout and the read indeed fails. -/
theorem C1_witness :
    statLineOk ["1.5", "2", "FLAG"] = false ∧
    ∃ e st1, read_Value emStatState ["1.5", "2", "FLAG"] = Except.error (e, st1) :=
  ⟨by decide, C1_amended emStatState ["1.5", "2", "FLAG"] rfl rfl (by decide)⟩

/-- Claim C2, counterexample: a Value read that fails mid-decode can
leave a cached statistics field overwritten with partial data: on the
malformed line "1.5,2,FLAG" the cast of "FLAG" raises only after
`self.min` has already been overwritten with 2.0, so `min` no longer
holds its prior value 10.0. -/
theorem C2_counterexample :
    read_Value emStatState ["1.5", "2", "FLAG"] =
      Except.error (PyErr.valueError, { emStatState with min := PyVal.pfloat 2 }) ∧
    ({ emStatState with min := PyVal.pfloat 2 }).min ≠ emStatState.min :=
  ⟨by with_unfolding_all decide, by decide⟩

/-- Claim C2 (amended): a failed Value read always leaves the cached
seqid (assigned last) unchanged, as well as the mode flags and unit
scale; in statistics mode the period is untouched, with statistics
mode off the statistics fields are untouched, and on PowerMax both
are untouched — but fields assigned before the failing cast (such as
`min` in statistics mode) may be overwritten with data from the
malformed line, which is the correction. -/
theorem C2_amended (st : PEMState) (data : List String) (e : PyErr) (st1 : PEMState)
    (herr : read_Value st data = Except.error (e, st1)) :
    st1.variant = st.variant ∧ st1.statmode = st.statmode ∧
    st1.unitscale = st.unitscale ∧ st1.seqid = st.seqid ∧
    (st.variant = Variant.energyMax → st.statmode = true → st1.period = st.period) ∧
    (st.variant = Variant.energyMax → st.statmode = false →
      st1.min = st.min ∧ st1.max = st.max ∧ st1.std = st.std ∧
      st1.dose = st.dose ∧ st1.missed = st.missed) ∧
    (st.variant = Variant.powerMax →
      st1.min = st.min ∧ st1.max = st.max ∧ st1.std = st.std ∧
      st1.dose = st.dose ∧ st1.missed = st.missed ∧ st1.period = st.period) := by
  obtain ⟨var, sm, u, mn, mx, sdv, ds, ms, fl, sq, pd⟩ := st
  cases var <;> cases sm <;>
    simp only [read_Value] at herr <;>
    repeat' (split at herr)
  all_goals try (obtain ⟨he, hst⟩ := herr)
  all_goals simp

/-- Witness for C2 (amended): on the failing line "1.5,2,FLAG" the
cached seqid and period are indeed unchanged. -/
theorem C2_witness :
    (read_Value emStatState ["1.5", "2", "FLAG"] =
      Except.error (PyErr.valueError, { emStatState with min := PyVal.pfloat 2 })) ∧
    ({ emStatState with min := PyVal.pfloat 2 }).seqid = emStatState.seqid ∧
    ({ emStatState with min := PyVal.pfloat 2 }).period = emStatState.period :=
  ⟨by with_unfolding_all decide,
   (C2_amended emStatState ["1.5", "2", "FLAG"] PyErr.valueError
      { emStatState with min := PyVal.pfloat 2 }
      (by with_unfolding_all decide)).2.2.2.1,
   (C2_amended emStatState ["1.5", "2", "FLAG"] PyErr.valueError
      { emStatState with min := PyVal.pfloat 2 }
      (by with_unfolding_all decide)).2.2.2.2.1 rfl rfl⟩

/-- Claim C3 (confirmed): a valid EnergyMax statistics-mode line
"v,mn,mx,sd,d,ms,f,s" decodes positionally into value, min, max, std,
dose, missed, flags, seqId; value is returned scaled by
1000^unitScale, min/max/std/dose are cached raw and individually
exposed scaled by 1000^unitScale, while missed, seqId (integers) and
flags (string) are never scaled. -/
theorem C3_theorem (st : PEMState) (s0 s1 s2 s3 s4 s5 f s7 : String)
    (v mn mx sd ds : ℚ) (ms sq : ℤ)
    (hvar : st.variant = Variant.energyMax) (hsm : st.statmode = true)
    (h0 : parseFloat? s0 = some v) (h1 : parseFloat? s1 = some mn)
    (h2 : parseFloat? s2 = some mx) (h3 : parseFloat? s3 = some sd)
    (h4 : parseFloat? s4 = some ds) (h5 : parseInt? s5 = some ms)
    (h7 : parseInt? s7 = some sq) :
    ∃ st', read_Value st [s0, s1, s2, s3, s4, s5, f, s7] =
        Except.ok (st', v * (1000 : ℚ) ^ st.unitscale) ∧
      st'.min = PyVal.pfloat mn ∧ st'.max = PyVal.pfloat mx ∧
      st'.std = PyVal.pfloat sd ∧ st'.dose = PyVal.pfloat ds ∧
      st'.missed = PyVal.pint ms ∧ st'.flags = f ∧ st'.seqid = sq ∧
      read_Statistics_min st' = PyVal.pfloat (mn * (1000 : ℚ) ^ st.unitscale) ∧
      read_Statistics_max st' = PyVal.pfloat (mx * (1000 : ℚ) ^ st.unitscale) ∧
      read_Statistics_std st' = PyVal.pfloat (sd * (1000 : ℚ) ^ st.unitscale) ∧
      read_Statistics_dose st' = PyVal.pfloat (ds * (1000 : ℚ) ^ st.unitscale) ∧
      read_Statistics_missed st' = PyVal.pint ms ∧
      read_SeqID st' = sq := by
  have g0 : getFloat [s0, s1, s2, s3, s4, s5, f, s7] 0 = Except.ok v := by
    show pyFloat s0 = Except.ok v
    simp [pyFloat, h0]
  have g1 : getFloat [s0, s1, s2, s3, s4, s5, f, s7] 1 = Except.ok mn := by
    show pyFloat s1 = Except.ok mn
    simp [pyFloat, h1]
  have g2 : getFloat [s0, s1, s2, s3, s4, s5, f, s7] 2 = Except.ok mx := by
    show pyFloat s2 = Except.ok mx
    simp [pyFloat, h2]
  have g3 : getFloat [s0, s1, s2, s3, s4, s5, f, s7] 3 = Except.ok sd := by
    show pyFloat s3 = Except.ok sd
    simp [pyFloat, h3]
  have g4 : getFloat [s0, s1, s2, s3, s4, s5, f, s7] 4 = Except.ok ds := by
    show pyFloat s4 = Except.ok ds
    simp [pyFloat, h4]
  have g5 : getInt [s0, s1, s2, s3, s4, s5, f, s7] 5 = Except.ok ms := by
    show pyInt s5 = Except.ok ms
    simp [pyInt, h5]
  have g6 : pyIndex [s0, s1, s2, s3, s4, s5, f, s7] 6 = Except.ok f := rfl
  have g7 : getInt [s0, s1, s2, s3, s4, s5, f, s7] 7 = Except.ok sq := by
    show pyInt s7 = Except.ok sq
    simp [pyInt, h7]
  refine ⟨_, on_eval st _ hvar hsm v mn mx sd ds ms sq f g0 g1 g2 g3 g4 g5 g6 g7,
    rfl, rfl, rfl, rfl, rfl, rfl, rfl, ?_, ?_, ?_, ?_, rfl, rfl⟩
  all_goals
    simp [read_Statistics_min, read_Statistics_max, read_Statistics_std,
      read_Statistics_dose, pyMulNat]

/-- Witness for C3 at the line "1.5,0.5,2.5,0.25,10,3,XP,42" with
unitScale = 1. -/
theorem C3_witness :
    ∃ st', read_Value { emStatState with unitscale := 1 }
        ["1.5", "0.5", "2.5", "0.25", "10", "3", "XP", "42"] =
        Except.ok (st', (3 / 2 : ℚ) * (1000 : ℚ) ^ (1 : ℕ)) ∧
      st'.min = PyVal.pfloat (1 / 2) ∧ st'.max = PyVal.pfloat (5 / 2) ∧
      st'.std = PyVal.pfloat (1 / 4) ∧ st'.dose = PyVal.pfloat 10 ∧
      st'.missed = PyVal.pint 3 ∧ st'.flags = "XP" ∧ st'.seqid = 42 ∧
      read_Statistics_min st' = PyVal.pfloat ((1 / 2) * (1000 : ℚ) ^ (1 : ℕ)) ∧
      read_Statistics_max st' = PyVal.pfloat ((5 / 2) * (1000 : ℚ) ^ (1 : ℕ)) ∧
      read_Statistics_std st' = PyVal.pfloat ((1 / 4) * (1000 : ℚ) ^ (1 : ℕ)) ∧
      read_Statistics_dose st' = PyVal.pfloat (10 * (1000 : ℚ) ^ (1 : ℕ)) ∧
      read_Statistics_missed st' = PyVal.pint 3 ∧
      read_SeqID st' = 42 :=
  C3_theorem { emStatState with unitscale := 1 } "1.5" "0.5" "2.5" "0.25" "10" "3" "XP" "42"
    (3 / 2) (1 / 2) (5 / 2) (1 / 4) 10 3 42 rfl rfl
    (by with_unfolding_all decide) (by with_unfolding_all decide)
    (by with_unfolding_all decide) (by with_unfolding_all decide)
    (by with_unfolding_all decide) (by decide) (by decide)

/-- Claim C4 (confirmed): a valid EnergyMax non-statistics line
"v,p,f,s" decodes to primaryValue = v * 1000^unitScale, period = p
(integer, unscaled), flags = f, seqId = s (integer, unscaled), and
the statistics fields are all blanked to the empty string — no
statistics record is populated. -/
theorem C4_theorem (st : PEMState) (s0 s1 f s3 : String) (v : ℚ) (p sq : ℤ)
    (hvar : st.variant = Variant.energyMax) (hsm : st.statmode = false)
    (h0 : parseFloat? s0 = some v) (h1 : parseInt? s1 = some p)
    (h3 : parseInt? s3 = some sq) :
    ∃ st', read_Value st [s0, s1, f, s3] =
        Except.ok (st', v * (1000 : ℚ) ^ st.unitscale) ∧
      st'.period = p ∧ st'.flags = f ∧ st'.seqid = sq ∧
      st'.min = PyVal.pstr "" ∧ st'.max = PyVal.pstr "" ∧ st'.std = PyVal.pstr "" ∧
      st'.dose = PyVal.pstr "" ∧ st'.missed = PyVal.pstr "" := by
  have g0 : getFloat [s0, s1, f, s3] 0 = Except.ok v := by
    show pyFloat s0 = Except.ok v
    simp [pyFloat, h0]
  have g1 : getInt [s0, s1, f, s3] 1 = Except.ok p := by
    show pyInt s1 = Except.ok p
    simp [pyInt, h1]
  have g2 : pyIndex [s0, s1, f, s3] 2 = Except.ok f := rfl
  have g3 : getInt [s0, s1, f, s3] 3 = Except.ok sq := by
    show pyInt s3 = Except.ok sq
    simp [pyInt, h3]
  exact ⟨_, off_eval st _ hvar hsm v p sq f g0 g1 g2 g3,
    rfl, rfl, rfl, rfl, rfl, rfl, rfl, rfl⟩

/-- Witness for C4 at the line "2.5,7,F,9" with unitScale = 0. -/
theorem C4_witness :
    ∃ st', read_Value emOffState ["2.5", "7", "F", "9"] =
        Except.ok (st', (5 / 2 : ℚ) * (1000 : ℚ) ^ (0 : ℕ)) ∧
      st'.period = 7 ∧ st'.flags = "F" ∧ st'.seqid = 9 ∧
      st'.min = PyVal.pstr "" ∧ st'.max = PyVal.pstr "" ∧ st'.std = PyVal.pstr "" ∧
      st'.dose = PyVal.pstr "" ∧ st'.missed = PyVal.pstr "" :=
  C4_theorem emOffState "2.5" "7" "F" "9" (5 / 2) 7 9 rfl rfl
    (by with_unfolding_all decide) (by decide) (by decide)

/-- Claim C10 (confirmed): after a successful EnergyMax stat-off
read, min/max/std/dose/missed hold the empty string; the sibling
getters multiply by the integer 1000^unitScale, which on a string is
Python string repetition, so Statistics_min/max/std/dose read back
the empty string rather than a float, and Statistics_missed the empty
string rather than an integer. -/
theorem C10_theorem (st : PEMState) (data : List String) (st' : PEMState) (v : ℚ)
    (hvar : st.variant = Variant.energyMax) (hsm : st.statmode = false)
    (hok : read_Value st data = Except.ok (st', v)) :
    st'.min = PyVal.pstr "" ∧ st'.max = PyVal.pstr "" ∧ st'.std = PyVal.pstr "" ∧
    st'.dose = PyVal.pstr "" ∧ st'.missed = PyVal.pstr "" ∧
    read_Statistics_min st' = PyVal.pstr "" ∧
    read_Statistics_max st' = PyVal.pstr "" ∧
    read_Statistics_std st' = PyVal.pstr "" ∧
    read_Statistics_dose st' = PyVal.pstr "" ∧
    read_Statistics_missed st' = PyVal.pstr "" := by
  obtain ⟨q, p, f, sq, g0, g1, g2, g3, hst, hv⟩ := off_char st data st' v hvar hsm hok
  subst hst
  refine ⟨rfl, rfl, rfl, rfl, rfl, ?_, ?_, ?_, ?_, rfl⟩
  all_goals
    simp [read_Statistics_min, read_Statistics_max, read_Statistics_std,
      read_Statistics_dose, pyMulNat, strRepeat_empty]

def emOff2State : PEMState := { emOffState with unitscale := 1 }

def emOff2After : PEMState :=
  { emOff2State with
    period := 7,
    flags := "F",
    seqid := 9,
    min := PyVal.pstr "",
    max := PyVal.pstr "",
    std := PyVal.pstr "",
    dose := PyVal.pstr "",
    missed := PyVal.pstr "" }

/-- Witness for C10 with unitScale = 1 (string repetition by the
integer factor 1000). -/
theorem C10_witness :
    (read_Value emOff2State ["2.5", "7", "F", "9"] =
      Except.ok (emOff2After, (5 / 2 : ℚ) * (1000 : ℚ) ^ (1 : ℕ))) ∧
    read_Statistics_min emOff2After = PyVal.pstr "" ∧
    read_Statistics_missed emOff2After = PyVal.pstr "" :=
  ⟨off_eval emOff2State ["2.5", "7", "F", "9"] rfl rfl (5 / 2) 7 9 "F"
     (by with_unfolding_all decide) (by decide) rfl (by decide),
   (C10_theorem emOff2State ["2.5", "7", "F", "9"] emOff2After
      ((5 / 2 : ℚ) * (1000 : ℚ) ^ (1 : ℕ)) rfl rfl
      (off_eval emOff2State ["2.5", "7", "F", "9"] rfl rfl (5 / 2) 7 9 "F"
        (by with_unfolding_all decide) (by decide) rfl (by decide))).2.2.2.2.2.1,
   (C10_theorem emOff2State ["2.5", "7", "F", "9"] emOff2After
      ((5 / 2 : ℚ) * (1000 : ℚ) ^ (1 : ℕ)) rfl rfl
      (off_eval emOff2State ["2.5", "7", "F", "9"] rfl rfl (5 / 2) 7 9 "F"
        (by with_unfolding_all decide) (by decide) rfl (by decide))).2.2.2.2.2.2.2.2.2⟩

/-- Claim C5, counterexample: the rolling-statistics reads do not all
fail on an empty or all-NaN history buffer.  On the empty buffer the
mean and std-percent reads succeed and return NaN (modelled by
`none`) — numpy only warns there — and on the non-empty all-NaN
buffer [NaN] all four reads succeed and return NaN as if it were a
valid statistic. -/
theorem C5_counterexample :
    read_Statistics_calc_mean [] = none ∧
    read_Statistics_calc_std [] = none ∧
    read_Statistics_calc_mean [none] = none ∧
    read_Statistics_calc_std [none] = none ∧
    read_Statistics_calc_min [none] = Except.ok none ∧
    read_Statistics_calc_max [none] = Except.ok none :=
  ⟨rfl, rfl, rfl, rfl, rfl, rfl⟩

/-- Claim C5 (amended): whenever the history buffer holds no numeric
entry, the mean and std-percent reads succeed and return NaN
(`none`) rather than failing; the min and max reads raise a
ValueError — a failed read, as the claim demands — on the empty
buffer, but on a non-empty all-NaN buffer they too succeed and
return NaN. -/
theorem C5_amended (hist : List (Option ℚ)) (h : nanValid hist = []) :
    read_Statistics_calc_mean hist = none ∧
    read_Statistics_calc_std hist = none ∧
    (hist = [] →
      read_Statistics_calc_min hist = Except.error PyErr.valueError ∧
      read_Statistics_calc_max hist = Except.error PyErr.valueError) ∧
    (hist ≠ [] →
      read_Statistics_calc_min hist = Except.ok none ∧
      read_Statistics_calc_max hist = Except.ok none) := by
  have hm : nanmean hist = none := by simp [nanmean, h]
  have hv : nanvariance hist = none := by simp [nanvariance, h]
  have hs : nanstd hist = none := by simp [nanstd, hv]
  refine ⟨hm, ?_, ?_, ?_⟩
  · unfold read_Statistics_calc_std
    rw [hs, hm]
  · intro he
    subst he
    exact ⟨rfl, rfl⟩
  · intro hne
    cases hist with
    | nil => exact absurd rfl hne
    | cons a l =>
      exact ⟨by simp [read_Statistics_calc_min, nanmin, h],
        by simp [read_Statistics_calc_max, nanmax, h]⟩

/-- Witness for C5 (amended), applied on the all-NaN buffer [NaN]
(mean/std/min/max all return NaN) and on the empty buffer (min and
max fail with the ValueError). -/
theorem C5_witness :
    nanValid [none] = [] ∧ ([none] : List (Option ℚ)) ≠ [] ∧
    (read_Statistics_calc_mean [none] = none ∧
     read_Statistics_calc_std [none] = none) ∧
    (read_Statistics_calc_min [none] = Except.ok none ∧
     read_Statistics_calc_max [none] = Except.ok none) ∧
    nanValid ([] : List (Option ℚ)) = [] ∧
    (read_Statistics_calc_min ([] : List (Option ℚ)) = Except.error PyErr.valueError ∧
     read_Statistics_calc_max ([] : List (Option ℚ)) = Except.error PyErr.valueError) :=
  ⟨rfl, by decide,
   ⟨(C5_amended [none] rfl).1, (C5_amended [none] rfl).2.1⟩,
   (C5_amended [none] rfl).2.2.2 (by decide),
   rfl,
   (C5_amended [] rfl).2.2.1 rfl⟩

/-- Claim C6 (confirmed): over the history [1.0, 2.0, 3.0] the
rolling reads give mean 2, min 1, max 3, and std-percent
(stddev/mean)*100 where stddev is the population standard deviation
sqrt(2/3) (variance divides by n = 3, numpy ddof = 0); NaN entries
are ignored (mean of [1, NaN, 2, 3] is still 2). -/
theorem C6_theorem :
    read_Statistics_calc_mean [some 1, some 2, some 3] = some 2 ∧
    read_Statistics_calc_min [some 1, some 2, some 3] = Except.ok (some 1) ∧
    read_Statistics_calc_max [some 1, some 2, some 3] = Except.ok (some 3) ∧
    nanvariance [some 1, some 2, some 3] = some (2 / 3) ∧
    read_Statistics_calc_std [some 1, some 2, some 3] =
      some (100 * (Real.sqrt (2 / 3) / 2)) ∧
    read_Statistics_calc_mean [some 1, none, some 2, some 3] = some 2 := by
  have hv : nanvariance [some 1, some 2, some 3] = some (2 / 3 : ℚ) := by
    with_unfolding_all decide
  have hm : nanmean [some 1, some 2, some 3] = some (2 : ℚ) := by
    with_unfolding_all decide
  refine ⟨hm, by with_unfolding_all decide, by with_unfolding_all decide, hv, ?_,
    by with_unfolding_all decide⟩
  unfold read_Statistics_calc_std
  rw [show nanstd [some 1, some 2, some 3] =
      some (Real.sqrt ((2 / 3 : ℚ) : ℝ)) by rw [nanstd, hv]; rfl, hm]
  norm_num

def emOffAfter : PEMState :=
  { emOffState with
    period := 7,
    flags := "F",
    seqid := 9,
    min := PyVal.pstr "",
    max := PyVal.pstr "",
    std := PyVal.pstr "",
    dose := PyVal.pstr "",
    missed := PyVal.pstr "" }

/-- Claim C7, counterexample: a successful PowerMax decode populates
neither the statistics record nor the period field (the cached
statistics stay blank and the cached period keeps its marker value
77), so "exactly one of statistics or period is populated" fails on
the PowerMax variant. -/
theorem C7_counterexample :
    read_Value pmState ["1.0", "XP", "7"] =
      Except.ok ({ pmState with flags := "XP", seqid := 7 }, 1) ∧
    ({ pmState with flags := "XP", seqid := 7 }).min = PyVal.pstr "" ∧
    ({ pmState with flags := "XP", seqid := 7 }).max = PyVal.pstr "" ∧
    ({ pmState with flags := "XP", seqid := 7 }).period = pmState.period ∧
    statsPopulated pmState.variant pmState.statmode = false ∧
    periodPopulated pmState.variant pmState.statmode = false :=
  ⟨by with_unfolding_all decide, rfl, rfl, rfl, rfl, rfl⟩

/-- Claim C7 (amended): for every successful decode at most one of
the statistics record and the period field is populated, never both;
on EnergyMax exactly one is, chosen solely by the variant and the
cached statistics-mode flag (the statsPopulated/periodPopulated
functions of those two values alone, matched against the actual state
update); the flag is set by the most recent statistics-mode write;
and a Value read writes exactly the single line "READ?", never the
statistics-mode query. -/
theorem C7_amended (st : PEMState) (data : List String) (st' : PEMState) (v : ℚ)
    (hok : read_Value st data = Except.ok (st', v)) :
    (¬ (statsPopulated st.variant st.statmode = true ∧
        periodPopulated st.variant st.statmode = true)) ∧
    (st.variant = Variant.energyMax →
      (statsPopulated st.variant st.statmode = true ∨
       periodPopulated st.variant st.statmode = true)) ∧
    (statsPopulated st.variant st.statmode = true →
      (∃ mn mx sd ds ms, st'.min = PyVal.pfloat mn ∧ st'.max = PyVal.pfloat mx ∧
        st'.std = PyVal.pfloat sd ∧ st'.dose = PyVal.pfloat ds ∧
        st'.missed = PyVal.pint ms) ∧ st'.period = st.period) ∧
    (periodPopulated st.variant st.statmode = true →
      (∃ p, getInt data 1 = Except.ok p ∧ st'.period = p) ∧
      st'.min = PyVal.pstr "" ∧ st'.max = PyVal.pstr "" ∧ st'.std = PyVal.pstr "" ∧
      st'.dose = PyVal.pstr "" ∧ st'.missed = PyVal.pstr "") ∧
    (st.variant = Variant.powerMax →
      st'.min = st.min ∧ st'.max = st.max ∧ st'.std = st.std ∧ st'.dose = st.dose ∧
      st'.missed = st.missed ∧ st'.period = st.period) ∧
    read_Value_writes st = ["READ?\r"] ∧
    Statistics_mode_query ∉ read_Value_writes st ∧
    (∀ b, ((write_Statistics_mode st b).1).statmode = b) := by
  have hnoquery : Statistics_mode_query ∉ read_Value_writes st := by
    simp [read_Value_writes, Statistics_mode_query]
  have hwsm : ∀ b, ((write_Statistics_mode st b).1).statmode = b := by
    intro b
    cases b <;> simp [write_Statistics_mode]
  cases hv : st.variant with
  | energyMax =>
    cases hm : st.statmode with
    | false =>
      obtain ⟨q, p, f, sq, g0, g1, g2, g3, hst, hval⟩ := off_char st data st' v hv hm hok
      subst hst
      refine ⟨?_, ?_, ?_, ?_, ?_, rfl, hnoquery, hwsm⟩
      · simp [statsPopulated, periodPopulated, hv, hm]
      · intro _
        right
        simp [periodPopulated, hv, hm]
      · intro hcon
        simp [statsPopulated, hv, hm] at hcon
      · intro _
        exact ⟨⟨p, g1, rfl⟩, rfl, rfl, rfl, rfl, rfl⟩
      · intro hpm
        simp at hpm
    | true =>
      obtain ⟨q, mn, mx, sd, ds, ms, f, sq, g0, g1, g2, g3, g4, g5, g6, g7, hst, hval⟩ :=
        on_char st data st' v hv hm hok
      subst hst
      refine ⟨?_, ?_, ?_, ?_, ?_, rfl, hnoquery, hwsm⟩
      · simp [statsPopulated, periodPopulated, hv, hm]
      · intro _
        left
        simp [statsPopulated, hv, hm]
      · intro _
        exact ⟨⟨mn, mx, sd, ds, ms, rfl, rfl, rfl, rfl, rfl⟩, rfl⟩
      · intro hcon
        simp [periodPopulated, hv, hm] at hcon
      · intro hpm
        simp at hpm
  | powerMax =>
    obtain ⟨q, f, sq, g0, g1, g2, hst, hval⟩ := pm_char st data st' v hv hok
    subst hst
    refine ⟨?_, ?_, ?_, ?_, ?_, rfl, hnoquery, hwsm⟩
    · simp [statsPopulated, periodPopulated, hv]
    · intro hem
      simp at hem
    · intro hcon
      simp [statsPopulated, hv] at hcon
    · intro hcon
      simp [periodPopulated, hv] at hcon
    · intro _
      exact ⟨rfl, rfl, rfl, rfl, rfl, rfl⟩

/-- Witness for C7 (amended) on an EnergyMax stat-off read. -/
theorem C7_witness :
    (read_Value emOffState ["2.5", "7", "F", "9"] =
      Except.ok (emOffAfter, (5 / 2 : ℚ) * (1000 : ℚ) ^ (0 : ℕ))) ∧
    ¬ (statsPopulated emOffState.variant emOffState.statmode = true ∧
       periodPopulated emOffState.variant emOffState.statmode = true) ∧
    read_Value_writes emOffState = ["READ?\r"] :=
  ⟨by with_unfolding_all decide,
   (C7_amended emOffState ["2.5", "7", "F", "9"] emOffAfter
      ((5 / 2 : ℚ) * (1000 : ℚ) ^ (0 : ℕ)) (by with_unfolding_all decide)).1,
   (C7_amended emOffState ["2.5", "7", "F", "9"] emOffAfter
      ((5 / 2 : ℚ) * (1000 : ℚ) ^ (0 : ℕ))
      (by with_unfolding_all decide)).2.2.2.2.2.1⟩

/-- Claim C8 (confirmed): unit scaling is purely presentational — on
every successful decode the returned value is the raw parsed field 0
times 1000^unitScale, with unitScale = 0 it equals the raw wire value,
and re-running the same decode with any other unitScale (as set by
`write_Mode`, unitscale = value mod 3, so 0 to 1) rescales the
returned value while every field parsed from the wire is unchanged. -/
theorem C8_theorem (st : PEMState) (data : List String) (st' : PEMState) (v : ℚ)
    (hok : read_Value st data = Except.ok (st', v)) :
    ∃ s0 raw, pyIndex data 0 = Except.ok s0 ∧ parseFloat? s0 = some raw ∧
      v = raw * (1000 : ℚ) ^ st.unitscale ∧
      (st.unitscale = 0 → v = raw) ∧
      (∀ u : ℕ, read_Value { st with unitscale := u } data =
        Except.ok ({ st' with unitscale := u }, raw * (1000 : ℚ) ^ u)) ∧
      (∀ m : ℕ, (write_Mode st m).unitscale = m % 3) := by
  obtain ⟨var, sm, u0, mn0, mx0, sd0, ds0, ms0, fl0, sq0, pd0⟩ := st
  cases var with
  | energyMax =>
    cases sm with
    | false =>
      obtain ⟨q, p, f, sq, g0, g1, g2, g3, hst, hval⟩ :=
        off_char ⟨Variant.energyMax, false, u0, mn0, mx0, sd0, ds0, ms0, fl0, sq0, pd0⟩
          data st' v rfl rfl hok
      obtain ⟨s0, i0, p0⟩ := getFloat_ok_elim data 0 q g0
      subst hst
      subst hval
      refine ⟨s0, q, i0, p0, rfl, ?_, ?_, fun m => rfl⟩
      · intro h0u
        have h0 : u0 = 0 := h0u
        show q * (1000 : ℚ) ^ u0 = q
        rw [h0]
        simp
      · intro u
        exact off_eval ⟨Variant.energyMax, false, u, mn0, mx0, sd0, ds0, ms0, fl0, sq0, pd0⟩
          data rfl rfl q p sq f g0 g1 g2 g3
    | true =>
      obtain ⟨q, mn, mx, sd, ds, ms, f, sq, g0, g1, g2, g3, g4, g5, g6, g7, hst, hval⟩ :=
        on_char ⟨Variant.energyMax, true, u0, mn0, mx0, sd0, ds0, ms0, fl0, sq0, pd0⟩
          data st' v rfl rfl hok
      obtain ⟨s0, i0, p0⟩ := getFloat_ok_elim data 0 q g0
      subst hst
      subst hval
      refine ⟨s0, q, i0, p0, rfl, ?_, ?_, fun m => rfl⟩
      · intro h0u
        have h0 : u0 = 0 := h0u
        show q * (1000 : ℚ) ^ u0 = q
        rw [h0]
        simp
      · intro u
        exact on_eval ⟨Variant.energyMax, true, u, mn0, mx0, sd0, ds0, ms0, fl0, sq0, pd0⟩
          data rfl rfl q mn mx sd ds ms sq f g0 g1 g2 g3 g4 g5 g6 g7
  | powerMax =>
    obtain ⟨q, f, sq, g0, g1, g2, hst, hval⟩ :=
      pm_char ⟨Variant.powerMax, sm, u0, mn0, mx0, sd0, ds0, ms0, fl0, sq0, pd0⟩
        data st' v rfl hok
    obtain ⟨s0, i0, p0⟩ := getFloat_ok_elim data 0 q g0
    subst hst
    subst hval
    refine ⟨s0, q, i0, p0, rfl, ?_, ?_, fun m => rfl⟩
    · intro h0u
      have h0 : u0 = 0 := h0u
      show q * (1000 : ℚ) ^ u0 = q
      rw [h0]
      simp
    · intro u
      exact pm_eval ⟨Variant.powerMax, sm, u, mn0, mx0, sd0, ds0, ms0, fl0, sq0, pd0⟩
        data rfl q sq f g0 g1 g2

/-- Witness for C8 on a PowerMax line "1.0,XP,7". -/
theorem C8_witness :
    (read_Value pmState ["1.0", "XP", "7"] =
      Except.ok ({ pmState with flags := "XP", seqid := 7 }, 1)) ∧
    (∃ s0 raw, pyIndex ["1.0", "XP", "7"] 0 = Except.ok s0 ∧
      parseFloat? s0 = some raw ∧
      (1 : ℚ) = raw * (1000 : ℚ) ^ pmState.unitscale ∧
      (pmState.unitscale = 0 → (1 : ℚ) = raw) ∧
      (∀ u : ℕ, read_Value { pmState with unitscale := u } ["1.0", "XP", "7"] =
        Except.ok ({ pmState with unitscale := u, flags := "XP", seqid := 7 },
          raw * (1000 : ℚ) ^ u)) ∧
      (∀ m : ℕ, (write_Mode pmState m).unitscale = m % 3)) :=
  ⟨by with_unfolding_all decide,
   C8_theorem pmState ["1.0", "XP", "7"] { pmState with flags := "XP", seqid := 7 } 1
     (by with_unfolding_all decide)⟩

/-- Claim C9 (amended): `send_query` forwards its argument with a
carriage return appended and returns the reply line stripped of
leading and trailing whitespace; `send_cmd` forwards the same way and
always returns the empty string. -/
theorem C9_amended (q reply : String) :
    send_query q reply = ([q ++ "\r"], pyStrip reply) ∧
    send_cmd q = ([q ++ "\r"], "") :=
  ⟨rfl, rfl⟩

/-- Claim C9, counterexample: the command line is forwarded
verbatim, but the reply is not returned raw: surrounding whitespace
is stripped, so the reply " A \n" comes back as "A". -/
theorem C9_counterexample :
    (send_query "STATUS?" " A \n").1 = ["STATUS?\r"] ∧
    (send_query "STATUS?" " A \n").2 = "A" ∧
    (send_query "STATUS?" " A \n").2 ≠ " A \n" ∧
    (send_cmd "ABC") = (["ABC\r"], "") := by
  refine ⟨rfl, ?_, ?_, rfl⟩ <;> with_unfolding_all decide

end CoherentPEM
